import Mathlib

/-!
Verification of the core modules of the `prisma-adapter-bunsqlite` driver adapter:
a shallow embedding of `src/conversion.ts` (value codec and column-type resolution),
`src/errors.ts` (engine-error translation), `src/transaction.ts` (async mutex and
transaction state) and `src/adapter.ts` (transaction startup), together with proofs
of the specified properties.

JavaScript runtime values are modelled by the inductive type `JSValue`. JavaScript
numbers are modelled as exact rationals (the properties under verification do not
involve floating-point rounding); JavaScript exceptions are modelled with
`Option`/`Except` results. JavaScript library primitives used by the adapter
(`BigInt(string)`, `Number.parseInt`, `Number.parseFloat`, base64 decoding,
`Date` arithmetic and ISO-8601 rendering) are modelled by executable Lean
functions defined below.
-/

namespace PrismaBunSqlite

/-- The Prisma `ColumnType` enum (from `@prisma/driver-adapter-utils`), restricted to
the constructors this adapter produces. -/
inductive ColumnType where
  | Int32 | Int64 | Float | Double | Numeric | Text | Bytes | Boolean
  | Date | Time | DateTime | Json | UnknownNumber
deriving DecidableEq

/-- JavaScript runtime values as they cross the adapter boundary. `vNum` is a finite
JavaScript number modelled as an exact rational; `vNaN` is the number NaN; `vBytes`
is a binary buffer (`Uint8Array`/`Buffer`/`ArrayBuffer`); `vArr` is a plain array of
byte-sized numbers; `vDate` is a `Date` object carrying its epoch timestamp in
milliseconds (`none` models an Invalid Date). -/
inductive JSValue where
  | vNull
  | vUndefined
  | vBool (b : Bool)
  | vNum (q : ℚ)
  | vNaN
  | vBigInt (v : ℤ)
  | vStr (s : String)
  | vBytes (bs : List Nat)
  | vArr (ns : List Nat)
  | vDate (ms : Option ℤ)
deriving DecidableEq

/-- The scalar kinds of Prisma `ArgType` that `mapArg` dispatches on. Kinds the
source handles through its `default` branch are collapsed into representatives. -/
inductive ScalarType where
  | int | float | decimal | bigint | datetime | bytes | text | boolean | json | unknown
deriving DecidableEq

/-- Prisma argument type descriptor; the adapter source only ever reads the
`scalarType` field. -/
structure ArgType where
  scalarType : ScalarType
deriving DecidableEq

/-- The adapter's `timestampFormat` option. -/
inductive TimestampFormat where
  | iso8601 | unixepochMs
deriving DecidableEq

/-! ### JavaScript string and number primitives -/

/-- Characters removed by JavaScript string trimming (WhiteSpace and LineTerminator;
the common code points). -/
def jsIsWhitespace (c : Char) : Bool :=
  c == ' ' || c == '\t' || c == '\n' || c == '\r' || c == '\x0b' || c == '\x0c' ||
  c == '\u00A0' || c == '\uFEFF'

/-- JavaScript `String.prototype.trim` over a character list. -/
def jsTrim (cs : List Char) : List Char :=
  ((cs.dropWhile jsIsWhitespace).reverse.dropWhile jsIsWhitespace).reverse

/-- The decimal digit character for a digit below ten. -/
def decDigitChar (d : Nat) : Char := Char.ofNat (48 + d)

/-- Fuel-driven accumulator loop rendering the decimal digits of a natural number
(most significant first); structural in the fuel so that it evaluates by kernel
reduction. -/
def natToDecFuel : Nat → Nat → List Char → List Char
  | 0, _, acc => acc
  | fuel + 1, n, acc =>
    if n = 0 then acc else natToDecFuel fuel (n / 10) (decDigitChar (n % 10) :: acc)

/-- Decimal digit string of a natural number, as JavaScript renders it. -/
def natToDec (n : Nat) : List Char :=
  if n = 0 then ['0'] else natToDecFuel (n + 1) n []

/-- JavaScript `BigInt.prototype.toString` (radix 10): sign followed by decimal
digits. -/
def bigIntToString (v : ℤ) : String :=
  if v < 0 then ⟨'-' :: natToDec v.natAbs⟩ else ⟨natToDec v.natAbs⟩

/-- Numeric value of a digit list, accumulated left to right from `a`. -/
def decDigitsVal (a : Nat) (cs : List Char) : Nat :=
  cs.foldl (fun x c => x * 10 + (c.toNat - 48)) a

/-- Parses a non-empty all-digit character list as a decimal natural number. -/
def parseDecNat (cs : List Char) : Option Nat :=
  if cs ≠ [] ∧ cs.all Char.isDigit = true then some (decDigitsVal 0 cs) else none

/-- Value of a hexadecimal digit character. -/
def hexDigitVal (c : Char) : Option Nat :=
  if c.isDigit then some (c.toNat - 48)
  else if 'a' ≤ c ∧ c ≤ 'f' then some (c.toNat - 87)
  else if 'A' ≤ c ∧ c ≤ 'F' then some (c.toNat - 55)
  else none

/-- Parses a non-empty digit list in the given radix (used for the `0x`/`0o`/`0b`
forms accepted by JavaScript `BigInt(string)`). -/
def parseRadixNat (radix : Nat) (cs : List Char) : Option Nat :=
  if cs = [] then none
  else
    cs.foldl
      (fun acc c =>
        match acc, hexDigitVal c with
        | some a, some d => if d < radix then some (a * radix + d) else none
        | _, _ => none)
      (some 0)

/-- JavaScript `BigInt(string)`: trims, accepts an empty string as zero, radix
prefixes `0x`/`0o`/`0b`, or an optionally signed decimal numeral; `none` models the
thrown `SyntaxError`. -/
def jsBigInt (s : String) : Option ℤ :=
  let cs := jsTrim s.data
  if cs = [] then some 0
  else if cs.take 2 = ['0', 'x'] ∨ cs.take 2 = ['0', 'X'] then
    (parseRadixNat 16 (cs.drop 2)).map Int.ofNat
  else if cs.take 2 = ['0', 'o'] ∨ cs.take 2 = ['0', 'O'] then
    (parseRadixNat 8 (cs.drop 2)).map Int.ofNat
  else if cs.take 2 = ['0', 'b'] ∨ cs.take 2 = ['0', 'B'] then
    (parseRadixNat 2 (cs.drop 2)).map Int.ofNat
  else if cs.head? = some '-' then (parseDecNat cs.tail).map fun n => -(Int.ofNat n)
  else if cs.head? = some '+' then (parseDecNat cs.tail).map Int.ofNat
  else (parseDecNat cs).map Int.ofNat

/-- JavaScript `Number.parseInt` with no explicit radix: leading whitespace, an
optional sign, an optional auto-detected `0x` hexadecimal prefix, then the longest
run of digits; `none` models the NaN result. -/
def jsParseInt (s : String) : Option ℤ :=
  let cs := s.data.dropWhile jsIsWhitespace
  let signAndRest : Bool × List Char :=
    match cs with
    | '-' :: r => (true, r)
    | '+' :: r => (false, r)
    | _ => (false, cs)
  let radixAndRest : Nat × List Char :=
    if signAndRest.2.take 2 = ['0', 'x'] ∨ signAndRest.2.take 2 = ['0', 'X'] then
      (16, signAndRest.2.drop 2)
    else (10, signAndRest.2)
  let ds := radixAndRest.2.takeWhile fun c =>
    (hexDigitVal c).elim false (fun d => d < radixAndRest.1)
  if ds = [] then none
  else
    let n := ds.foldl (fun a c => a * radixAndRest.1 + (hexDigitVal c).getD 0) 0
    some (if signAndRest.1 then -(n : ℤ) else (n : ℤ))

/-- JavaScript `Number.parseFloat` restricted to finite decimal literals: leading
whitespace, optional sign, digits with optional fraction and exponent, ignoring any
trailing garbage; `none` models the NaN result (the `Infinity` literal is outside
this model). -/
def jsParseFloat (s : String) : Option ℚ :=
  let cs := s.data.dropWhile jsIsWhitespace
  let signAndRest : ℚ × List Char :=
    match cs with
    | '-' :: r => (-1, r)
    | '+' :: r => (1, r)
    | _ => (1, cs)
  let intPart := signAndRest.2.takeWhile Char.isDigit
  let afterInt := signAndRest.2.dropWhile Char.isDigit
  let fracAndRest : List Char × List Char :=
    match afterInt with
    | '.' :: r => (r.takeWhile Char.isDigit, r.dropWhile Char.isDigit)
    | _ => ([], afterInt)
  if intPart = [] ∧ fracAndRest.1 = [] then none
  else
    let mantissa : ℚ :=
      (decDigitsVal 0 intPart : ℚ) +
        (decDigitsVal 0 fracAndRest.1 : ℚ) / ((10 : ℚ) ^ fracAndRest.1.length)
    let expDigits : ℤ → List Char → ℤ := fun sgn r =>
      let t := r.takeWhile Char.isDigit
      if t = [] then 0 else sgn * (decDigitsVal 0 t : ℤ)
    let exponent : ℤ :=
      match fracAndRest.2 with
      | 'e' :: '-' :: r => expDigits (-1) r
      | 'e' :: '+' :: r => expDigits 1 r
      | 'e' :: r => expDigits 1 r
      | 'E' :: '-' :: r => expDigits (-1) r
      | 'E' :: '+' :: r => expDigits 1 r
      | 'E' :: r => expDigits 1 r
      | _ => 0
    some (signAndRest.1 * mantissa * (10 : ℚ) ^ exponent)

/-! ### JavaScript Date model -/

/-- Gregorian leap-year test. -/
def isLeapYear (y : ℤ) : Bool := (y % 4 = 0 ∧ y % 100 ≠ 0) ∨ y % 400 = 0

/-- Number of days in a month (1-based) of a given year. -/
def daysInMonth (y : ℤ) (m : Nat) : Nat :=
  if m = 1 ∨ m = 3 ∨ m = 5 ∨ m = 7 ∨ m = 8 ∨ m = 10 ∨ m = 12 then 31
  else if m = 4 ∨ m = 6 ∨ m = 9 ∨ m = 11 then 30
  else if isLeapYear y then 29 else 28

/-- Days from 1970-01-01 to the given civil date (proleptic Gregorian). -/
def daysFromCivil (y : ℤ) (m d : Nat) : ℤ :=
  let yAdj : ℤ := if m ≤ 2 then y - 1 else y
  let era : ℤ := yAdj.fdiv 400
  let yoe : Nat := (yAdj - era * 400).toNat
  let mp : Nat := if 2 < m then m - 3 else m + 9
  let doy : Nat := (153 * mp + 2) / 5 + d - 1
  let doe : Nat := yoe * 365 + yoe / 4 - yoe / 100 + doy
  era * 146097 + (doe : ℤ) - 719468

/-- Civil date (year, month, day) of a day count relative to 1970-01-01. -/
def civilFromDays (z0 : ℤ) : ℤ × Nat × Nat :=
  let z : ℤ := z0 + 719468
  let era : ℤ := z.fdiv 146097
  let doe : Nat := (z - era * 146097).toNat
  let yoe : Nat := (doe - doe / 1460 + doe / 36524 - doe / 146096) / 365
  let y : ℤ := (yoe : ℤ) + era * 400
  let doy : Nat := doe - (365 * yoe + yoe / 4 - yoe / 100)
  let mp : Nat := (5 * doy + 2) / 153
  let d : Nat := doy - (153 * mp + 2) / 5 + 1
  let m : Nat := if mp < 10 then mp + 3 else mp - 9
  (if m ≤ 2 then y + 1 else y, m, d)

/-- Zero-pads the decimal form of a natural number to the given width. -/
def padNum (w : Nat) (n : Nat) : String :=
  let ds := natToDec n
  ⟨List.replicate (w - ds.length) '0' ++ ds⟩

/-- The year component of a JavaScript ISO string: four digits for 0..9999 and the
signed six-digit expanded form outside that range. -/
def isoYearString (y : ℤ) : String :=
  if y < 0 then "-" ++ padNum 6 y.natAbs
  else if 9999 < y then "+" ++ padNum 6 y.toNat
  else padNum 4 y.toNat

/-- JavaScript `Date.prototype.toISOString` for a (valid) epoch-millisecond time
value. -/
def isoOfEpochMs (t : ℤ) : String :=
  let day : ℤ := t.fdiv 86400000
  let msOfDay : Nat := (t - day * 86400000).toNat
  let ymd := civilFromDays day
  isoYearString ymd.1 ++ "-" ++ padNum 2 ymd.2.1 ++ "-" ++ padNum 2 ymd.2.2 ++ "T" ++
    padNum 2 (msOfDay / 3600000) ++ ":" ++ padNum 2 (msOfDay % 3600000 / 60000) ++ ":" ++
    padNum 2 (msOfDay % 60000 / 1000) ++ "." ++ padNum 3 (msOfDay % 1000) ++ "Z"

/-- The largest epoch-millisecond magnitude representable by a JavaScript Date. -/
def maxDateMs : ℕ := 8640000000000000

/-- JavaScript `Date.prototype.toISOString` including its range check: `none` models
the `RangeError` thrown for an out-of-range (invalid) time value. -/
def jsEpochToISO (t : ℤ) : Option String :=
  if t.natAbs ≤ maxDateMs then some (isoOfEpochMs t) else none

/-- Truncation toward zero of a rational, as JavaScript `ToIntegerOrInfinity`
performs on finite numbers (and as `Math.trunc` does). -/
def jsTrunc (q : ℚ) : ℤ := if q < 0 then ⌈q⌉ else ⌊q⌋

/-- Parses exactly `k` decimal digits, returning the value and the remaining
characters. -/
def parseFixedDigits (k : Nat) (cs : List Char) : Option (Nat × List Char) :=
  let ds := cs.take k
  if ds.length = k ∧ ds.all Char.isDigit = true then some (decDigitsVal 0 ds, cs.drop k)
  else none

/-- Parses the optional time-of-day and zone suffix of an ISO date-time string,
returning its millisecond offset (times without a zone designator are read as UTC
in this model). -/
def parseISOTime (cs : List Char) : Option ℤ :=
  match parseFixedDigits 2 cs with
  | none => none
  | some (hh, rest1) =>
    match rest1 with
    | ':' :: rest2 =>
      match parseFixedDigits 2 rest2 with
      | none => none
      | some (mm, rest3) =>
        let secAndRest : Option (Nat × Nat × List Char) :=
          match rest3 with
          | ':' :: rest4 =>
            match parseFixedDigits 2 rest4 with
            | none => none
            | some (ss, rest5) =>
              match rest5 with
              | '.' :: rest6 =>
                match parseFixedDigits 3 rest6 with
                | none => none
                | some (ms, rest7) => some (ss, ms, rest7)
              | _ => some (ss, 0, rest5)
          | _ => some (0, 0, rest3)
        match secAndRest with
        | none => none
        | some (ss, ms, rest) =>
          let base : ℤ := hh * 3600000 + mm * 60000 + ss * 1000 + ms
          if 23 < hh ∨ 59 < mm ∨ 59 < ss then none
          else
            match rest with
            | [] => some base
            | ['Z'] => some base
            | '+' :: zs =>
              match parseFixedDigits 2 zs with
              | some (zh, ':' :: zrest) =>
                match parseFixedDigits 2 zrest with
                | some (zm, []) => some (base - (zh * 3600000 + zm * 60000))
                | _ => none
              | _ => none
            | '-' :: zs =>
              match parseFixedDigits 2 zs with
              | some (zh, ':' :: zrest) =>
                match parseFixedDigits 2 zrest with
                | some (zm, []) => some (base + (zh * 3600000 + zm * 60000))
                | _ => none
              | _ => none
            | _ => none
    | _ => none

/-- JavaScript `new Date(string)` restricted to the ISO-8601 forms the engine and
Prisma exchange (`YYYY-MM-DD`, optionally followed by `THH:MM[:SS[.mmm]]` and a zone
designator); `none` models an Invalid Date. -/
def jsParseDate (s : String) : Option ℤ :=
  match parseFixedDigits 4 s.data with
  | none => none
  | some (y, rest1) =>
    match rest1 with
    | '-' :: rest2 =>
      match parseFixedDigits 2 rest2 with
      | none => none
      | some (m, rest3) =>
        match rest3 with
        | '-' :: rest4 =>
          match parseFixedDigits 2 rest4 with
          | none => none
          | some (d, rest5) =>
            if m < 1 ∨ 12 < m ∨ d < 1 ∨ daysInMonth y m < d then none
            else
              let dayMs : ℤ := daysFromCivil y m d * 86400000
              match rest5 with
              | [] => some dayMs
              | 'T' :: rest6 =>
                match parseISOTime rest6 with
                | none => none
                | some offset =>
                  let t := dayMs + offset
                  if t.natAbs ≤ maxDateMs then some t else none
              | _ => none
        | _ => none
    | _ => none

/-! ### Base64 decoding (Buffer.from with the base64 encoding) -/

/-- Value of a base64 alphabet character; padding and other characters are `none`. -/
def base64CharVal (c : Char) : Option Nat :=
  if 'A' ≤ c ∧ c ≤ 'Z' then some (c.toNat - 65)
  else if 'a' ≤ c ∧ c ≤ 'z' then some (c.toNat - 71)
  else if c.isDigit then some (c.toNat - 48 + 52)
  else if c = '+' then some 62
  else if c = '/' then some 63
  else none

/-- Packs 6-bit groups into bytes, dropping an incomplete trailing byte. -/
def base64Pack : List Nat → List Nat
  | a :: b :: c :: d :: rest =>
    (a * 4 + b / 16) :: ((b % 16) * 16 + c / 4) :: ((c % 4) * 64 + d) :: base64Pack rest
  | [a, b] => [a * 4 + b / 16]
  | [a, b, c] => [a * 4 + b / 16, (b % 16) * 16 + c / 4]
  | _ => []

/-- Node-style forgiving base64 decoding as performed by `Buffer.from(s, "base64")`:
characters outside the alphabet (including padding) are skipped. -/
def base64Decode (s : String) : List Nat :=
  base64Pack (s.data.filterMap base64CharVal)

/-! ### Embedding of src/conversion.ts -/

/-- JavaScript string truthiness: `none` (absent) and the empty string are falsy. -/
def jsTruthyStr (o : Option String) : Option String :=
  o.bind fun s => if s = "" then none else some s

/-- JavaScript `String.prototype.trim` on a string. -/
def jsTrimStr (s : String) : String := ⟨jsTrim s.data⟩

/-- JavaScript `String.prototype.toUpperCase` (over the ASCII range these type
names use). -/
def jsToUpper (s : String) : String := ⟨s.data.map Char.toUpper⟩

/-- JavaScript `String.prototype.startsWith`. -/
def jsStartsWith (s pat : String) : Bool := pat.data.isPrefixOf s.data

/-- Splits a character list at the first occurrence of `sep`, returning the parts
before and after it. -/
def splitFirst (sep : List Char) : List Char → Option (List Char × List Char)
  | [] => none
  | c :: rest =>
    if sep.isPrefixOf (c :: rest) then some ([], (c :: rest).drop sep.length)
    else
      match splitFirst sep rest with
      | some (pre, post) => some (c :: pre, post)
      | none => none

/-- Fuel-driven split loop (structural in the fuel so that it evaluates by kernel
reduction; the fuel bounds the number of parts). -/
def jsSplitFuel : Nat → List Char → List Char → List (List Char)
  | 0, _, cs => [cs]
  | fuel + 1, sep, cs =>
    match splitFirst sep cs with
    | some (pre, post) => pre :: jsSplitFuel fuel sep post
    | none => [cs]

/-- JavaScript `String.prototype.split` with a non-empty string separator. -/
def jsSplit (s sep : String) : List String :=
  (jsSplitFuel (s.data.length + 1) sep.data s.data).map fun l => ⟨l⟩

/-- JavaScript `String.prototype.includes`. -/
def strIncludes (s pat : String) : Bool := (splitFirst pat.data s.data).isSome

/-- JavaScript `String.prototype.replace` with a string pattern: replaces the first
occurrence only. -/
def jsReplaceFirst (s pat rep : String) : String :=
  match splitFirst pat.data s.data with
  | some (pre, post) => ⟨pre ++ rep.data ++ post⟩
  | none => s

/-- Scans past the first `)` character, returning the remaining characters. -/
def dropThroughCloseParen : List Char → Option (List Char)
  | [] => none
  | c :: rest => if c = ')' then some rest else dropThroughCloseParen rest

/-- Removes the first parenthesized group, mirroring one replacement of the
regular expression `\([^)]*\)` with the empty string (no change when the pattern
does not occur). -/
def removeParenGroup : List Char → List Char
  | [] => []
  | c :: rest =>
    if c = '(' then
      match dropThroughCloseParen rest with
      | some post => post
      | none => c :: rest
    else c :: removeParenGroup rest

/-- Maps SQLite column type declarations to the Prisma `ColumnType` enum, handling
length specifiers such as `(255)` and `UNSIGNED` modifiers (`mapDeclType` in
`src/conversion.ts`). -/
def mapDeclType (declType : String) : Option ColumnType :=
  let normalized := jsTrimStr (jsToUpper declType)
  let baseType := jsTrimStr ⟨removeParenGroup normalized.data⟩
  match baseType with
  | "" => none
  | "DECIMAL" => some ColumnType.Numeric
  | "FLOAT" => some ColumnType.Float
  | "DOUBLE" => some ColumnType.Double
  | "DOUBLE PRECISION" => some ColumnType.Double
  | "NUMERIC" => some ColumnType.Double
  | "REAL" => some ColumnType.Double
  | "TINYINT" => some ColumnType.Int32
  | "SMALLINT" => some ColumnType.Int32
  | "MEDIUMINT" => some ColumnType.Int32
  | "INT" => some ColumnType.Int32
  | "INTEGER" => some ColumnType.Int32
  | "SERIAL" => some ColumnType.Int32
  | "INT2" => some ColumnType.Int32
  | "TINYINT UNSIGNED" => some ColumnType.Int32
  | "SMALLINT UNSIGNED" => some ColumnType.Int32
  | "MEDIUMINT UNSIGNED" => some ColumnType.Int32
  | "INT UNSIGNED" => some ColumnType.Int32
  | "INTEGER UNSIGNED" => some ColumnType.Int32
  | "BIGINT" => some ColumnType.Int64
  | "UNSIGNED BIG INT" => some ColumnType.Int64
  | "INT8" => some ColumnType.Int64
  | "BIGINT UNSIGNED" => some ColumnType.Int64
  | "DATETIME" => some ColumnType.DateTime
  | "TIMESTAMP" => some ColumnType.DateTime
  | "TIME" => some ColumnType.Time
  | "DATE" => some ColumnType.Date
  | "TEXT" => some ColumnType.Text
  | "CLOB" => some ColumnType.Text
  | "CHAR" => some ColumnType.Text
  | "CHARACTER" => some ColumnType.Text
  | "VARCHAR" => some ColumnType.Text
  | "VARYING CHARACTER" => some ColumnType.Text
  | "NCHAR" => some ColumnType.Text
  | "NATIVE CHARACTER" => some ColumnType.Text
  | "NVARCHAR" => some ColumnType.Text
  | "BLOB" => some ColumnType.Bytes
  | "BOOLEAN" => some ColumnType.Boolean
  | "JSON" => some ColumnType.Json
  | "JSONB" => some ColumnType.Json
  | _ => none

/-- Maps the SQLite runtime type tag reported by `stmt.columnTypes` to a Prisma
`ColumnType` (`mapRuntimeType` in `src/conversion.ts`); an absent or empty tag is
falsy and yields `none`. -/
def mapRuntimeType (runtimeType : Option String) : Option ColumnType :=
  match jsTruthyStr runtimeType with
  | none => none
  | some s =>
    match jsToUpper s with
    | "INTEGER" => some ColumnType.Int64
    | "REAL" => some ColumnType.Double
    | "FLOAT" => some ColumnType.Double
    | "TEXT" => some ColumnType.Text
    | "BLOB" => some ColumnType.Bytes
    | "NULL" => none
    | _ => none

/-- Infers a column type from an actual first-row value (`inferTypeFromValue` in
`src/conversion.ts`): used only when both declared and runtime metadata are
unavailable; numbers deliberately map to `UnknownNumber`. -/
def inferTypeFromValue : JSValue → Option ColumnType
  | JSValue.vNull => none
  | JSValue.vUndefined => none
  | JSValue.vBigInt _ => some ColumnType.Int64
  | JSValue.vNum _ => some ColumnType.UnknownNumber
  | JSValue.vNaN => some ColumnType.UnknownNumber
  | JSValue.vStr _ => some ColumnType.Text
  | JSValue.vBytes _ => some ColumnType.Bytes
  | JSValue.vBool _ => some ColumnType.Boolean
  | _ => none

/-- Value-inference tail of the per-column resolution in `getColumnTypes`: infer
from the first-row value if present, else the `Int32` default. -/
def resolveColumnTypeValue (value : Option JSValue) : ColumnType :=
  match value with
  | some v =>
    match inferTypeFromValue v with
    | some inferredType => inferredType
    | none => ColumnType.Int32
  | none => ColumnType.Int32

/-- Runtime-tag fallback of the per-column resolution in `getColumnTypes`: consult
the runtime tag if truthy, else fall through to value inference. -/
def resolveColumnTypeRuntime (runtimeType : Option String) (value : Option JSValue) :
    ColumnType :=
  match jsTruthyStr runtimeType with
  | some rs =>
    match mapRuntimeType (some rs) with
    | some mappedRuntime => mappedRuntime
    | none => resolveColumnTypeValue value
  | none => resolveColumnTypeValue value

/-- The per-column body of `getColumnTypes`: declared type first, then the runtime
tag, then value inference, then the `Int32` default. -/
def resolveColumnType (declType : Option String) (runtimeType : Option String)
    (value : Option JSValue) : ColumnType :=
  match jsTruthyStr declType with
  | some ds =>
    match mapDeclType ds with
    | some mappedType => mappedType
    | none => resolveColumnTypeRuntime runtimeType value
  | none => resolveColumnTypeRuntime runtimeType value

/-- Computes the column type array (`getColumnTypes` in `src/conversion.ts`): the
map runs over `declaredTypes`, fetching the runtime tag and optional first-row
value at the same index. -/
def getColumnTypes (declaredTypes : List (Option String))
    (runtimeTypes : List (Option String)) (values : Option (List JSValue)) :
    List ColumnType :=
  declaredTypes.enum.map fun p =>
    resolveColumnType p.2 ((runtimeTypes.get? p.1).join)
      (values.bind fun vs => vs.get? p.1)

/-- One cell of `mapRow`: binary buffers become plain number arrays; non-integral
numbers in integer columns are truncated toward zero; numeric or wide-integer
values in `DateTime` columns are rendered as ISO strings; remaining wide integers
become decimal strings unless the numeric-coercion option applies. -/
def mapCell (allow : Bool) (ct : Option ColumnType) : JSValue → Option JSValue
  | JSValue.vBytes bs => some (JSValue.vArr bs)
  | JSValue.vNum q =>
    if (ct = some ColumnType.Int32 ∨ ct = some ColumnType.Int64) ∧ q.den ≠ 1 then
      some (JSValue.vNum (jsTrunc q : ℚ))
    else if ct = some ColumnType.DateTime then (jsEpochToISO (jsTrunc q)).map JSValue.vStr
    else some (JSValue.vNum q)
  | JSValue.vNaN =>
    if ct = some ColumnType.Int32 ∨ ct = some ColumnType.Int64 then some JSValue.vNaN
    else if ct = some ColumnType.DateTime then none
    else some JSValue.vNaN
  | JSValue.vBigInt v =>
    if ct = some ColumnType.DateTime then (jsEpochToISO v).map JSValue.vStr
    else if allow ∧ 0 ≤ v ∧ v ≤ 7300000000000 then some (JSValue.vNum (v : ℚ))
    else some (JSValue.vStr (bigIntToString v))
  | v => some v

/-- Row loop of `mapRow`; the column-type list is consumed in step with the row. -/
def mapRowGo (allow : Bool) : List JSValue → List ColumnType → Option (List JSValue)
  | [], _ => some []
  | v :: vs, cts => do
    let c ← mapCell allow cts.head? v
    let rest ← mapRowGo allow vs cts.tail
    pure (c :: rest)

/-- Maps a row of values from SQLite format to Prisma format (`mapRow` in
`src/conversion.ts`); `none` models the `RangeError` thrown when an invalid time
value reaches `toISOString`. -/
def mapRow (row : List JSValue) (columnTypes : List ColumnType) (allow : Bool) :
    Option (List JSValue) :=
  mapRowGo allow row columnTypes

/-- Scalar-type dispatch of `mapArg` (the `switch` in `src/conversion.ts`). -/
def mapArgTyped (arg : JSValue) (argType : ArgType) (fmt : TimestampFormat) :
    Option JSValue :=
  match argType.scalarType with
  | ScalarType.int =>
    match arg with
    | JSValue.vStr str =>
      some ((jsParseInt str).elim JSValue.vNaN fun n => JSValue.vNum (n : ℚ))
    | a => some a
  | ScalarType.float =>
    match arg with
    | JSValue.vStr str => some ((jsParseFloat str).elim JSValue.vNaN JSValue.vNum)
    | a => some a
  | ScalarType.decimal =>
    match arg with
    | JSValue.vStr str => some ((jsParseFloat str).elim JSValue.vNaN JSValue.vNum)
    | a => some a
  | ScalarType.bigint =>
    match arg with
    | JSValue.vStr str => (jsBigInt str).map JSValue.vBigInt
    | a => some a
  | ScalarType.datetime =>
    let date := match arg with
      | JSValue.vStr str => JSValue.vDate (jsParseDate str)
      | a => a
    match date with
    | JSValue.vDate t =>
      match fmt with
      | TimestampFormat.unixepochMs =>
        some (t.elim JSValue.vNaN fun ms => JSValue.vNum (ms : ℚ))
      | TimestampFormat.iso8601 =>
        match t with
        | some ms => (jsEpochToISO ms).map fun iso =>
            JSValue.vStr (jsReplaceFirst iso "Z" "+00:00")
        | none => none
    | a => some a
  | ScalarType.bytes =>
    match arg with
    | JSValue.vStr str => some (JSValue.vBytes (base64Decode str))
    | JSValue.vArr ns => some (JSValue.vBytes (ns.map (· % 256)))
    | a => some a
  | _ => some arg

/-- Maps an argument from Prisma format to SQLite format (`mapArg` in
`src/conversion.ts`): `null` passes through, booleans become 1/0 before any
scalar-type dispatch, and the remaining kinds go through the scalar-type switch;
`none` models a thrown JavaScript exception. -/
def mapArg (arg : JSValue) (argType : ArgType) (fmt : TimestampFormat) :
    Option JSValue :=
  match arg with
  | JSValue.vNull => some JSValue.vNull
  | JSValue.vBool b => some (JSValue.vNum (if b then 1 else 0))
  | a => mapArgTyped a argType fmt

/-! ### Embedding of src/errors.ts -/

/-- Shape of a Bun `SQLiteError` as the adapter reads it: `message` is `none` when
absent, `code` is `none` when not a string, `errno` is `none` when not a number. -/
structure SqliteError where
  message : Option String
  code : Option String
  errno : Option ℤ
deriving DecidableEq

/-- The `SQLITE_ERROR_MAP` table from `src/errors.ts`, mapping errno values to code
strings. -/
def SQLITE_ERROR_MAP (errno : ℤ) : Option String :=
  if errno = 1 then some "SQLITE_ERROR"
  else if errno = 2 then some "SQLITE_INTERNAL"
  else if errno = 3 then some "SQLITE_PERM"
  else if errno = 4 then some "SQLITE_ABORT"
  else if errno = 5 then some "SQLITE_BUSY"
  else if errno = 6 then some "SQLITE_LOCKED"
  else if errno = 7 then some "SQLITE_NOMEM"
  else if errno = 8 then some "SQLITE_READONLY"
  else if errno = 9 then some "SQLITE_INTERRUPT"
  else if errno = 10 then some "SQLITE_IOERR"
  else if errno = 11 then some "SQLITE_CORRUPT"
  else if errno = 12 then some "SQLITE_NOTFOUND"
  else if errno = 13 then some "SQLITE_FULL"
  else if errno = 14 then some "SQLITE_CANTOPEN"
  else if errno = 15 then some "SQLITE_PROTOCOL"
  else if errno = 16 then some "SQLITE_EMPTY"
  else if errno = 17 then some "SQLITE_SCHEMA"
  else if errno = 18 then some "SQLITE_TOOBIG"
  else if errno = 19 then some "SQLITE_CONSTRAINT"
  else if errno = 20 then some "SQLITE_MISMATCH"
  else if errno = 21 then some "SQLITE_MISUSE"
  else if errno = 22 then some "SQLITE_NOLFS"
  else if errno = 23 then some "SQLITE_AUTH"
  else if errno = 24 then some "SQLITE_FORMAT"
  else if errno = 25 then some "SQLITE_RANGE"
  else if errno = 26 then some "SQLITE_NOTADB"
  else if errno = 2067 then some "SQLITE_CONSTRAINT_UNIQUE"
  else if errno = 1555 then some "SQLITE_CONSTRAINT_PRIMARYKEY"
  else if errno = 787 then some "SQLITE_CONSTRAINT_NOTNULL"
  else if errno = 1811 then some "SQLITE_CONSTRAINT_FOREIGNKEY"
  else if errno = 1299 then some "SQLITE_CONSTRAINT_TRIGGER"
  else none

/-- The code-resolution expression of `convertDriverError`: a truthy `code` wins,
otherwise the errno table, otherwise the `SQLITE_UNKNOWN` sentinel. -/
def resolveErrorCode (e : SqliteError) : String :=
  match jsTruthyStr e.code with
  | some c => c
  | none =>
    match e.errno.bind SQLITE_ERROR_MAP with
    | some c => c
    | none => "SQLITE_UNKNOWN"

/-- The `constraint` payload of a classified driver error: either extracted field
names or the empty foreign-key marker. -/
inductive ErrorConstraint where
  | fields (fs : List String)
  | foreignKey
deriving DecidableEq

/-- A classified driver error as returned by `convertDriverError`: the normalized
`kind` together with the original engine code and message and the optional
constraint/table/column diagnostics. -/
structure DriverError where
  originalCode : String
  originalMessage : String
  kind : String
  constraint : Option ErrorConstraint
  table : Option String
  column : Option String
deriving DecidableEq

/-- Best-effort field extraction from a `... constraint failed: a.x, b.y` message:
the segment after the first occurrence of the marker, split on `", "`, keeping the
last dot-component of each entry. -/
def extractConstraintFields (message : String) : Option (List String) :=
  ((jsSplit message "constraint failed: ").get? 1).map fun seg =>
    (jsSplit seg ", ").map fun field => ((jsSplit field ".").getLast?).getD ""

/-- Converts a Bun SQLite error to the Prisma driver-error format
(`convertDriverError` in `src/errors.ts`); `Except.error e` models re-throwing the
original error object unmodified. -/
def convertDriverError (e : SqliteError) : Except SqliteError DriverError :=
  if jsTruthyStr e.message = none ∨ (e.code = none ∧ e.errno = none) then
    Except.error e
  else if resolveErrorCode e = "SQLITE_BUSY" then
    Except.ok
      ⟨resolveErrorCode e, e.message.getD "", "SocketTimeout", none, none, none⟩
  else if resolveErrorCode e = "SQLITE_CONSTRAINT_UNIQUE" ∨
      resolveErrorCode e = "SQLITE_CONSTRAINT_PRIMARYKEY" then
    Except.ok
      ⟨resolveErrorCode e, e.message.getD "", "UniqueConstraintViolation",
        (extractConstraintFields (e.message.getD "")).map ErrorConstraint.fields,
        none, none⟩
  else if resolveErrorCode e = "SQLITE_CONSTRAINT_NOTNULL" then
    Except.ok
      ⟨resolveErrorCode e, e.message.getD "", "NullConstraintViolation",
        (extractConstraintFields (e.message.getD "")).map ErrorConstraint.fields,
        none, none⟩
  else if resolveErrorCode e = "SQLITE_CONSTRAINT_FOREIGNKEY" ∨
      resolveErrorCode e = "SQLITE_CONSTRAINT_TRIGGER" then
    Except.ok
      ⟨resolveErrorCode e, e.message.getD "", "ForeignKeyConstraintViolation",
        some ErrorConstraint.foreignKey, none, none⟩
  else if jsStartsWith (e.message.getD "") "no such table" then
    Except.ok
      ⟨resolveErrorCode e, e.message.getD "", "TableDoesNotExist", none,
        (jsSplit (e.message.getD "") ": ").get? 1, none⟩
  else if jsStartsWith (e.message.getD "") "no such column" then
    Except.ok
      ⟨resolveErrorCode e, e.message.getD "", "ColumnNotFound", none, none,
        (jsSplit (e.message.getD "") ": ").get? 1⟩
  else if strIncludes (e.message.getD "") "has no column named" then
    Except.ok
      ⟨resolveErrorCode e, e.message.getD "", "ColumnNotFound", none, none,
        (jsSplit (e.message.getD "") "has no column named ").get? 1⟩
  else
    Except.error e

/-- The switch cases of `convertDriverError` that classify by resolved code. -/
def isHandledErrorCode (c : String) : Bool :=
  c == "SQLITE_BUSY" || c == "SQLITE_CONSTRAINT_UNIQUE" ||
  c == "SQLITE_CONSTRAINT_PRIMARYKEY" || c == "SQLITE_CONSTRAINT_NOTNULL" ||
  c == "SQLITE_CONSTRAINT_FOREIGNKEY" || c == "SQLITE_CONSTRAINT_TRIGGER"

/-! ### Embedding of src/transaction.ts and src/adapter.ts -/

/-- State of the `AsyncMutex`: the `locked` flag and the FIFO queue of pending
waiters (identified by arrival tokens). -/
structure MutexState where
  locked : Bool
  queue : List Nat
deriving DecidableEq

/-- The initial, unlocked mutex. -/
def MutexState.empty : MutexState := ⟨false, []⟩

/-- Result seen by a caller of `acquire`. -/
inductive AcquireResult where
  | granted
  | enqueued
deriving DecidableEq

/-- The `AsyncMutex.acquire` step: an unlocked mutex is taken immediately,
otherwise the caller is appended to the wait queue. -/
def acquire (w : Nat) (s : MutexState) : MutexState × AcquireResult :=
  if s.locked then ({ locked := s.locked, queue := s.queue ++ [w] }, AcquireResult.enqueued)
  else ({ locked := true, queue := s.queue }, AcquireResult.granted)

/-- The private `AsyncMutex.release` step: the head waiter (if any) is handed the
lock directly, otherwise the locked flag is cleared. Returns the new state and the
waiter that was unblocked. -/
def release (s : MutexState) : MutexState × Option Nat :=
  match s.queue with
  | next :: rest => ({ locked := true, queue := rest }, some next)
  | [] => ({ locked := false, queue := [] }, none)

/-- One call of the one-shot releaser returned by `createReleaser`: `called` is the
captured flag; a second call is a no-op. Returns the updated flag, the mutex state
and the waiter unblocked by this call. -/
def callReleaser (called : Bool) (s : MutexState) : Bool × MutexState × Option Nat :=
  if called then (true, s, none)
  else (true, (release s).1, (release s).2)

/-- Folds a sequence of `acquire` calls (arrival order) over a mutex state. -/
def acquireMany (ids : List Nat) (s : MutexState) : MutexState :=
  ids.foldl (fun st w => (acquire w st).1) s

/-- Runs `release` repeatedly (with fuel so it evaluates by kernel reduction),
collecting the waiters unblocked, in order. -/
def drainReleasesFuel : Nat → MutexState → List Nat
  | 0, _ => []
  | fuel + 1, s =>
    match release s with
    | (s2, some w) => w :: drainReleasesFuel fuel s2
    | (_, none) => []

/-- The sequence of waiters unblocked by releasing the mutex until its queue is
exhausted. -/
def drainReleases (s : MutexState) : List Nat :=
  drainReleasesFuel s.queue.length s

/-- The transaction state string union from `src/types.ts`. -/
inductive TransactionState where
  | active
  | committed
  | rolled_back
deriving DecidableEq

/-- The state name as it appears in error messages. -/
def stateName : TransactionState → String
  | TransactionState.active => "active"
  | TransactionState.committed => "committed"
  | TransactionState.rolled_back => "rolled_back"

/-- The observable state of a `BunSqliteTransaction`: its lifecycle state and the
`called` flag of the one-shot `releaseLock` closure it owns. -/
structure BunSqliteTransaction where
  state : TransactionState
  releaserCalled : Bool
deriving DecidableEq

/-- Driver-adapter errors raised by the transaction layer. -/
inductive TxError where
  | transactionAlreadyClosed (cause : String)
deriving DecidableEq

/-- The guard of `BunSqliteTransaction.queryRaw`: a non-active transaction throws
`TransactionAlreadyClosed`, otherwise the query is delegated to the base
queryable. -/
def txQueryRaw (t : BunSqliteTransaction) : Except TxError Unit :=
  if t.state ≠ TransactionState.active then
    Except.error (TxError.transactionAlreadyClosed
      ("Cannot execute query on a " ++ stateName t.state ++ " transaction."))
  else Except.ok ()

/-- The guard of `BunSqliteTransaction.executeRaw`, analogous to `txQueryRaw`. -/
def txExecuteRaw (t : BunSqliteTransaction) : Except TxError Unit :=
  if t.state ≠ TransactionState.active then
    Except.error (TxError.transactionAlreadyClosed
      ("Cannot execute statement on a " ++ stateName t.state ++ " transaction."))
  else Except.ok ()

/-- `BunSqliteTransaction.commit`: unconditionally sets the state to `committed`
and invokes the one-shot `releaseLock`; the method body contains no throw, so the
result is always `Except.ok`. Returns the updated transaction, the updated mutex
and the waiter unblocked (if the release actually ran). -/
def txCommit (t : BunSqliteTransaction) (m : MutexState) :
    Except TxError (BunSqliteTransaction × MutexState × Option Nat) :=
  let r := callReleaser t.releaserCalled m
  Except.ok (⟨TransactionState.committed, r.1⟩, r.2.1, r.2.2)

/-- `BunSqliteTransaction.rollback`: unconditionally sets the state to
`rolled_back` and invokes the one-shot `releaseLock`. -/
def txRollback (t : BunSqliteTransaction) (m : MutexState) :
    Except TxError (BunSqliteTransaction × MutexState × Option Nat) :=
  let r := callReleaser t.releaserCalled m
  Except.ok (⟨TransactionState.rolled_back, r.1⟩, r.2.1, r.2.2)

/-- A commit or rollback call. -/
inductive CloseOp where
  | commit
  | rollback
deriving DecidableEq

/-- Runs a sequence of commit/rollback calls on one transaction object, threading
the mutex state (the error branch is unreachable since neither method throws). -/
def runCloseOps : List CloseOp → BunSqliteTransaction → MutexState →
    BunSqliteTransaction × MutexState
  | [], t, m => (t, m)
  | op :: rest, t, m =>
    match (match op with
           | CloseOp.commit => txCommit t m
           | CloseOp.rollback => txRollback t m) with
    | Except.ok (t2, m2, _) => runCloseOps rest t2 m2
    | Except.error _ => (t, m)

/-- Errors propagating out of `startTransaction`. -/
inductive StartError where
  | invalidIsolationLevel (level : String)
  | adapterError (d : DriverError)
  | raw (e : SqliteError)
deriving DecidableEq

/-- Outcome of `startTransaction`: a live transaction, a propagated error, or a
caller parked in the mutex queue (its continuation runs when the lock is handed
over). Each outcome carries the resulting mutex state. -/
inductive StartOutcome where
  | started (t : BunSqliteTransaction) (m : MutexState)
  | failed (e : StartError) (m : MutexState)
  | waiting (m : MutexState)
deriving DecidableEq

/-- The error value thrown when BEGIN fails: `convertDriverError` output wrapped in
a `DriverAdapterError`, or the original error when it is re-thrown. -/
def convertedStartError (err : SqliteError) : StartError :=
  match convertDriverError err with
  | Except.ok d => StartError.adapterError d
  | Except.error e => StartError.raw e

/-- The body of `startTransaction` after the mutex was acquired: issue BEGIN and
build the transaction; on failure call the releaser before the translated error
propagates. `beginResult` stands for the engine's response to `db.run("BEGIN")`. -/
def beginAndBuild (beginResult : Except SqliteError Unit) (m : MutexState) :
    StartOutcome :=
  match beginResult with
  | Except.ok _ => StartOutcome.started ⟨TransactionState.active, false⟩ m
  | Except.error err =>
    StartOutcome.failed (convertedStartError err) (callReleaser false m).2.1

/-- `BunSqliteAdapter.startTransaction`: rejects isolation levels other than
SERIALIZABLE before touching the mutex, then acquires the mutex (parking the
caller when it is held) and issues BEGIN. -/
def startTransaction (isolationLevel : Option String)
    (beginResult : Except SqliteError Unit) (w : Nat) (m : MutexState) :
    StartOutcome :=
  match isolationLevel with
  | some lvl =>
    if lvl = "SERIALIZABLE" then
      match acquire w m with
      | (m2, AcquireResult.granted) => beginAndBuild beginResult m2
      | (m2, AcquireResult.enqueued) => StartOutcome.waiting m2
    else StartOutcome.failed (StartError.invalidIsolationLevel lvl) m
  | none =>
    match acquire w m with
    | (m2, AcquireResult.granted) => beginAndBuild beginResult m2
    | (m2, AcquireResult.enqueued) => StartOutcome.waiting m2

/-! ### Sanity checks of the library models on concrete values -/

example : isoOfEpochMs 0 = "1970-01-01T00:00:00.000Z" := by decide

example : isoOfEpochMs 1700000000000 = "2023-11-14T22:13:20.000Z" := by decide

example : isoOfEpochMs (-1) = "1969-12-31T23:59:59.999Z" := by decide

example : jsParseDate "2023-11-14T22:13:20.000Z" = some 1700000000000 := by decide

example : jsParseDate "2019-02-29" = none := by decide

example : jsBigInt "0x1A" = some 26 := by decide

example : jsBigInt "" = some 0 := by decide

example : jsParseInt "  -42abc" = some (-42) := by decide

example : mapDeclType "VARCHAR(255)" = some ColumnType.Text := by decide

example : mapDeclType "INTEGER UNSIGNED" = some ColumnType.Int32 := by decide

example : mapDeclType "CHAR(10)" = some ColumnType.Text := by decide

example : base64Decode "aGVsbG8=" = [104, 101, 108, 108, 111] := by decide

example :
    extractConstraintFields "UNIQUE constraint failed: user.email, user.name" =
      some ["email", "name"] := by decide

example :
    convertDriverError ⟨some "no such table: users", none, some 1⟩ =
      Except.ok
        ⟨"SQLITE_ERROR", "no such table: users", "TableDoesNotExist", none,
          some "users", none⟩ := rfl

example :
    mapRow [JSValue.vNum (5 / 2)] [ColumnType.Int64] false =
      some [JSValue.vNum 2] := by
  norm_num [mapRow, mapRowGo, mapCell, jsTrunc]

/-! ### Lemmas: the decimal printer and parser invert each other -/

theorem natToDecFuel_congr :
    ∀ (f1 f2 n : Nat) (acc : List Char), n < f1 → n < f2 →
      natToDecFuel f1 n acc = natToDecFuel f2 n acc := by
  intro f1
  induction f1 with
  | zero => intro f2 n acc h1 _; omega
  | succ k ih =>
    intro f2 n acc h1 h2
    cases f2 with
    | zero => omega
    | succ m =>
      by_cases hn : n = 0
      · simp [natToDecFuel, hn]
      · simp only [natToDecFuel, if_neg hn]
        have hd : n / 10 < n := Nat.div_lt_self (Nat.pos_of_ne_zero hn) (by norm_num)
        exact ih m (n / 10) _ (by omega) (by omega)

theorem natToDec_acc (n : Nat) :
    ∀ acc, natToDecFuel (n + 1) n acc = natToDecFuel (n + 1) n [] ++ acc := by
  induction n using Nat.strong_induction_on with
  | _ n ih =>
    intro acc
    by_cases hn : n = 0
    · simp [natToDecFuel, hn]
    · have hd : n / 10 < n := Nat.div_lt_self (Nat.pos_of_ne_zero hn) (by norm_num)
      have hu : ∀ ac : List Char,
          natToDecFuel (n + 1) n ac =
            natToDecFuel (n / 10 + 1) (n / 10) (decDigitChar (n % 10) :: ac) := by
        intro ac
        simp only [natToDecFuel, if_neg hn]
        exact natToDecFuel_congr n (n / 10 + 1) (n / 10) _ (by omega) (by omega)
      rw [hu acc, hu []]
      rw [ih (n / 10) hd (decDigitChar (n % 10) :: acc),
        ih (n / 10) hd [decDigitChar (n % 10)]]
      simp

theorem natToDec_unfold (n : Nat) (hn : n ≠ 0) :
    natToDecFuel (n + 1) n [] =
      natToDecFuel (n / 10 + 1) (n / 10) [] ++ [decDigitChar (n % 10)] := by
  have h1 : natToDecFuel (n + 1) n [] =
      natToDecFuel (n / 10 + 1) (n / 10) [decDigitChar (n % 10)] := by
    simp only [natToDecFuel, if_neg hn]
    have hd : n / 10 < n := Nat.div_lt_self (Nat.pos_of_ne_zero hn) (by norm_num)
    exact natToDecFuel_congr n (n / 10 + 1) (n / 10) _ (by omega) (by omega)
  rw [h1, natToDec_acc]

theorem natToDec_ne_nil (n : Nat) : natToDec n ≠ [] := by
  unfold natToDec
  by_cases hn : n = 0
  · simp [hn]
  · rw [if_neg hn, natToDec_unfold n hn]
    simp

theorem natToDec_mem (P : Char → Prop) (hP : ∀ d, d < 10 → P (decDigitChar d)) :
    ∀ n, ∀ c ∈ natToDec n, P c := by
  have core : ∀ n, ∀ c ∈ natToDecFuel (n + 1) n [], P c := by
    intro n
    induction n using Nat.strong_induction_on with
    | _ n ih =>
      intro c hc
      by_cases hn : n = 0
      · rw [hn] at hc
        simp [natToDecFuel] at hc
      · rw [natToDec_unfold n hn] at hc
        rcases List.mem_append.mp hc with h | h
        · exact ih (n / 10) (Nat.div_lt_self (Nat.pos_of_ne_zero hn) (by norm_num)) c h
        · rw [List.mem_singleton.mp h]
          exact hP (n % 10) (Nat.mod_lt n (by norm_num))
  intro n c hc
  unfold natToDec at hc
  by_cases hn : n = 0
  · rw [if_pos hn] at hc
    rw [List.mem_singleton.mp hc]
    exact hP 0 (by norm_num)
  · rw [if_neg hn] at hc
    exact core n c hc

theorem decDigitChar_toNat (d : Nat) (h : d < 10) : (decDigitChar d).toNat = 48 + d := by
  interval_cases d <;> decide

theorem decDigitsVal_append (a : Nat) (l1 l2 : List Char) :
    decDigitsVal a (l1 ++ l2) = decDigitsVal (decDigitsVal a l1) l2 := by
  simp [decDigitsVal, List.foldl_append]

theorem decDigitsVal_natToDecFuel (n : Nat) :
    ∀ a, decDigitsVal a (natToDecFuel (n + 1) n []) =
      a * 10 ^ (natToDecFuel (n + 1) n []).length + n := by
  induction n using Nat.strong_induction_on with
  | _ n ih =>
    intro a
    by_cases hn : n = 0
    · simp [natToDecFuel, hn, decDigitsVal]
    · have hd : n / 10 < n := Nat.div_lt_self (Nat.pos_of_ne_zero hn) (by norm_num)
      rw [natToDec_unfold n hn, decDigitsVal_append, ih (n / 10) hd a]
      have hsing : ∀ b : Nat, decDigitsVal b [decDigitChar (n % 10)] = b * 10 + n % 10 := by
        intro b
        have ht := decDigitChar_toNat (n % 10) (Nat.mod_lt n (by norm_num))
        simp [decDigitsVal, ht]
      rw [hsing]
      rw [List.length_append, List.length_singleton, pow_succ]
      have key : (a * 10 ^ (natToDecFuel (n / 10 + 1) (n / 10) []).length + n / 10) * 10
            + n % 10 =
          a * (10 ^ (natToDecFuel (n / 10 + 1) (n / 10) []).length * 10) +
            (10 * (n / 10) + n % 10) := by ring
      rw [key, Nat.div_add_mod]

theorem parseDecNat_natToDec (n : Nat) : parseDecNat (natToDec n) = some n := by
  by_cases hn : n = 0
  · rw [hn]; decide
  · have hdig : (natToDec n).all Char.isDigit = true := by
      rw [List.all_eq_true]
      intro c hc
      exact natToDec_mem (fun c => c.isDigit = true)
        (by intro d hd; interval_cases d <;> decide) n c hc
    unfold parseDecNat
    rw [if_pos ⟨natToDec_ne_nil n, hdig⟩]
    unfold natToDec
    rw [if_neg hn]
    rw [decDigitsVal_natToDecFuel n 0]
    simp

theorem dropWhile_eq_self_of_false (p : Char → Bool) (cs : List Char)
    (h : ∀ c ∈ cs, p c = false) : cs.dropWhile p = cs := by
  cases cs with
  | nil => rfl
  | cons c t =>
    rw [List.dropWhile_cons, h c (by simp)]
    simp

theorem jsTrim_eq_self (cs : List Char) (h : ∀ c ∈ cs, jsIsWhitespace c = false) :
    jsTrim cs = cs := by
  unfold jsTrim
  rw [dropWhile_eq_self_of_false _ _ h]
  rw [dropWhile_eq_self_of_false _ _ (by intro c hc; exact h c (List.mem_reverse.mp hc))]
  exact List.reverse_reverse cs

theorem jsBigInt_bigIntToString (v : ℤ) : jsBigInt (bigIntToString v) = some v := by
  have hmem : ∀ c ∈ natToDec v.natAbs, c.isDigit = true ∧ jsIsWhitespace c = false :=
    natToDec_mem _ (by intro d hd; interval_cases d <;> exact (by decide)) v.natAbs
  have hdig : ∀ y ∈ natToDec v.natAbs, y.isDigit = true := fun y hy => (hmem y hy).1
  have htake : ∀ (x : Char), x ∈ (natToDec v.natAbs).take 2 → x ∈ natToDec v.natAbs :=
    fun x hx => List.take_subset 2 _ hx
  by_cases hv : v < 0
  · have hcs : (bigIntToString v).data = '-' :: natToDec v.natAbs := by
      unfold bigIntToString
      rw [if_pos hv]
    unfold jsBigInt
    rw [hcs]
    rw [jsTrim_eq_self _ (by
      intro c hc
      rcases List.mem_cons.mp hc with rfl | hc2
      · decide
      · exact (hmem c hc2).2)]
    rw [if_neg (by simp)]
    rw [if_neg (by
      rcases List.exists_cons_of_ne_nil (natToDec_ne_nil v.natAbs) with ⟨c, t, hct⟩
      rw [hct]
      simp [List.take_succ_cons])]
    rw [if_neg (by
      rcases List.exists_cons_of_ne_nil (natToDec_ne_nil v.natAbs) with ⟨c, t, hct⟩
      rw [hct]
      simp [List.take_succ_cons])]
    rw [if_neg (by
      rcases List.exists_cons_of_ne_nil (natToDec_ne_nil v.natAbs) with ⟨c, t, hct⟩
      rw [hct]
      simp [List.take_succ_cons])]
    rw [if_pos (by simp)]
    simp only [List.tail_cons, parseDecNat_natToDec]
    simp only [Option.map]
    simp only [Option.some.injEq, Int.ofNat_eq_natCast]
    omega
  · have hcs : (bigIntToString v).data = natToDec v.natAbs := by
      unfold bigIntToString
      rw [if_neg hv]
    unfold jsBigInt
    rw [hcs]
    rw [jsTrim_eq_self _ (fun c hc => (hmem c hc).2)]
    rcases List.exists_cons_of_ne_nil (natToDec_ne_nil v.natAbs) with ⟨c, t, hct⟩
    have hcmem : c ∈ natToDec v.natAbs := by rw [hct]; simp
    rw [if_neg (by rw [hct]; simp)]
    rw [if_neg (by
      rintro (h | h)
      · exact absurd (hdig 'x' (htake 'x' (by rw [h]; simp))) (by decide)
      · exact absurd (hdig 'X' (htake 'X' (by rw [h]; simp))) (by decide))]
    rw [if_neg (by
      rintro (h | h)
      · exact absurd (hdig 'o' (htake 'o' (by rw [h]; simp))) (by decide)
      · exact absurd (hdig 'O' (htake 'O' (by rw [h]; simp))) (by decide))]
    rw [if_neg (by
      rintro (h | h)
      · exact absurd (hdig 'b' (htake 'b' (by rw [h]; simp))) (by decide)
      · exact absurd (hdig 'B' (htake 'B' (by rw [h]; simp))) (by decide))]
    rw [if_neg (by
      rw [hct]
      simp only [List.head?_cons, Option.some.injEq]
      intro h0
      have hcd := hdig c hcmem
      rw [h0] at hcd
      exact absurd hcd (by decide))]
    rw [if_neg (by
      rw [hct]
      simp only [List.head?_cons, Option.some.injEq]
      intro h0
      have hcd := hdig c hcmem
      rw [h0] at hcd
      exact absurd hcd (by decide))]
    rw [parseDecNat_natToDec]
    simp only [Option.map]
    simp only [Option.some.injEq, Int.ofNat_eq_natCast]
    omega

/-! ### Claim theorems: value codec and column-type resolution -/

/-- C1: encoding a 64-bit signed integer argument with scalar type bigint via
`mapArg` (from its decimal-string protocol form, or passing a wide integer
through) yields the exact wide integer for the engine, and decoding the stored
wide integer via `mapRow` with the numeric-coercion option disabled yields its
decimal string, which parses back to the same value: a lossless round-trip over
the full 64-bit signed range including both extremes. -/
theorem C1_bigint_roundtrip (v : ℤ) (fmt : TimestampFormat)
    (_hlo : -(2 ^ 63) ≤ v) (_hhi : v ≤ 2 ^ 63 - 1) :
    mapArg (JSValue.vStr (bigIntToString v)) ⟨ScalarType.bigint⟩ fmt =
      some (JSValue.vBigInt v) ∧
    mapArg (JSValue.vBigInt v) ⟨ScalarType.bigint⟩ fmt = some (JSValue.vBigInt v) ∧
    mapRow [JSValue.vBigInt v] [ColumnType.Int64] false =
      some [JSValue.vStr (bigIntToString v)] ∧
    jsBigInt (bigIntToString v) = some v := by
  refine ⟨?_, rfl, ?_, jsBigInt_bigIntToString v⟩
  · show mapArgTyped (JSValue.vStr (bigIntToString v)) ⟨ScalarType.bigint⟩ fmt = _
    simp [mapArgTyped, jsBigInt_bigIntToString v]
  · simp [mapRow, mapRowGo, mapCell]

/-- Concrete instance of the bigint round-trip at the negative extreme. -/
theorem C1_bigint_roundtrip_witness :
    (-(2 ^ 63) ≤ (-(2 ^ 63) : ℤ)) ∧ ((-(2 ^ 63) : ℤ) ≤ 2 ^ 63 - 1) ∧
    (mapArg (JSValue.vStr (bigIntToString (-(2 ^ 63)))) ⟨ScalarType.bigint⟩
        TimestampFormat.iso8601 = some (JSValue.vBigInt (-(2 ^ 63))) ∧
      mapArg (JSValue.vBigInt (-(2 ^ 63))) ⟨ScalarType.bigint⟩
        TimestampFormat.iso8601 = some (JSValue.vBigInt (-(2 ^ 63))) ∧
      mapRow [JSValue.vBigInt (-(2 ^ 63))] [ColumnType.Int64] false =
        some [JSValue.vStr (bigIntToString (-(2 ^ 63)))] ∧
      jsBigInt (bigIntToString (-(2 ^ 63))) = some (-(2 ^ 63))) :=
  ⟨by norm_num, by norm_num,
    C1_bigint_roundtrip (-(2 ^ 63)) TimestampFormat.iso8601 (by norm_num) (by norm_num)⟩

/-- C2: `mapArg` encodes the boolean `true` as the engine value 1 and `false` as 0
regardless of the argument type and timestamp format, `mapRow` passes the stored
0/1 through unchanged for a column typed Boolean, and the nonzero reading of the
stored value recovers the original boolean. -/
theorem C2_boolean_roundtrip (b : Bool) (t : ArgType) (fmt : TimestampFormat)
    (allow : Bool) :
    mapArg (JSValue.vBool b) t fmt = some (JSValue.vNum (if b then 1 else 0)) ∧
    mapRow [JSValue.vNum (if b then 1 else 0)] [ColumnType.Boolean] allow =
      some [JSValue.vNum (if b then 1 else 0)] ∧
    (((if b then (1 : ℚ) else 0) ≠ 0) ↔ b = true) := by
  refine ⟨rfl, ?_, ?_⟩
  · cases b <;> simp [mapRow, mapRowGo, mapCell]
  · cases b <;> simp

/-- C3: per-column type resolution follows the fixed order declared type, then
runtime type, then value inference, then the `Int32` default; `getColumnTypes`
applies exactly this resolution at each column index; a column declared DATE with
runtime tag TEXT resolves to Date even though the runtime tag alone would give
Text; and the result is `Int32` when no source is available. -/
theorem C3_resolution_order :
    (∀ (d r : Option String) (w : Option JSValue),
      resolveColumnType d r w =
        ((jsTruthyStr d).bind mapDeclType).getD
          (((jsTruthyStr r).bind fun rs => mapRuntimeType (some rs)).getD
            ((w.bind inferTypeFromValue).getD ColumnType.Int32))) ∧
    (∀ (ds rs : List (Option String)) (vs : Option (List JSValue)),
      getColumnTypes ds rs vs = ds.enum.map fun p =>
        resolveColumnType p.2 ((rs.get? p.1).join) (vs.bind fun l => l.get? p.1)) ∧
    getColumnTypes [some "DATE"] [some "TEXT"] none = [ColumnType.Date] ∧
    mapRuntimeType (some "TEXT") = some ColumnType.Text ∧
    resolveColumnType none none none = ColumnType.Int32 := by
  have hval : ∀ w : Option JSValue,
      resolveColumnTypeValue w = (w.bind inferTypeFromValue).getD ColumnType.Int32 := by
    intro w
    cases w with
    | none => rfl
    | some v => cases hv : inferTypeFromValue v <;> simp [resolveColumnTypeValue, hv]
  have hrt : ∀ (r : Option String) (w : Option JSValue),
      resolveColumnTypeRuntime r w =
        ((jsTruthyStr r).bind fun rs => mapRuntimeType (some rs)).getD
          ((w.bind inferTypeFromValue).getD ColumnType.Int32) := by
    intro r w
    cases hr : jsTruthyStr r with
    | none => simp [resolveColumnTypeRuntime, hr, hval]
    | some rs =>
      cases hm : mapRuntimeType (some rs) <;>
        simp [resolveColumnTypeRuntime, hr, hm, hval]
  refine ⟨?_, fun ds rs vs => rfl, by decide, by decide, rfl⟩
  intro d r w
  cases hd : jsTruthyStr d with
  | none => simp [resolveColumnType, hd, hrt]
  | some ds =>
    cases hm : mapDeclType ds <;> simp [resolveColumnType, hd, hm, hrt]

/-! ### Claim theorems: error translation -/

/-- C4: whenever `convertDriverError` classifies an error (returns a driver error
rather than re-throwing), the result carries the resolved original code and the
original message, and its kind follows the fixed table: busy to SocketTimeout,
unique/primary-key to UniqueConstraintViolation, not-null to
NullConstraintViolation, foreign-key/trigger to ForeignKeyConstraintViolation,
and, for unhandled codes, the message prefix "no such table" to TableDoesNotExist
and the prefix "no such column" or substring "has no column named" to
ColumnNotFound. -/
theorem C4_error_classification (e : SqliteError) (r : DriverError)
    (h : convertDriverError e = Except.ok r) :
    r.originalCode = resolveErrorCode e ∧
    r.originalMessage = e.message.getD "" ∧
    (resolveErrorCode e = "SQLITE_BUSY" → r.kind = "SocketTimeout") ∧
    (resolveErrorCode e = "SQLITE_CONSTRAINT_UNIQUE" ∨
        resolveErrorCode e = "SQLITE_CONSTRAINT_PRIMARYKEY" →
      r.kind = "UniqueConstraintViolation") ∧
    (resolveErrorCode e = "SQLITE_CONSTRAINT_NOTNULL" →
      r.kind = "NullConstraintViolation") ∧
    (resolveErrorCode e = "SQLITE_CONSTRAINT_FOREIGNKEY" ∨
        resolveErrorCode e = "SQLITE_CONSTRAINT_TRIGGER" →
      r.kind = "ForeignKeyConstraintViolation") ∧
    (isHandledErrorCode (resolveErrorCode e) = false →
      jsStartsWith (e.message.getD "") "no such table" = true →
      r.kind = "TableDoesNotExist") ∧
    (isHandledErrorCode (resolveErrorCode e) = false →
      jsStartsWith (e.message.getD "") "no such table" = false →
      (jsStartsWith (e.message.getD "") "no such column" = true ∨
        strIncludes (e.message.getD "") "has no column named" = true) →
      r.kind = "ColumnNotFound") := by
  unfold convertDriverError at h
  split_ifs at h with g0 g1 g2 g3 g4 g5 g6 g7
  all_goals try casesm* _ ∨ _
  all_goals
    first
      | exact Except.noConfusion h
      | (injection h with h2
         subst h2
         refine ⟨rfl, rfl, ?_, ?_, ?_, ?_, ?_, ?_⟩ <;>
           simp_all [isHandledErrorCode])

/-- Concrete instance of the error classification on a unique-constraint error. -/
theorem C4_error_classification_witness :
    convertDriverError
        ⟨some "UNIQUE constraint failed: user.email",
          some "SQLITE_CONSTRAINT_UNIQUE", none⟩ =
      Except.ok
        ⟨"SQLITE_CONSTRAINT_UNIQUE", "UNIQUE constraint failed: user.email",
          "UniqueConstraintViolation", some (ErrorConstraint.fields ["email"]),
          none, none⟩ ∧
    (⟨"SQLITE_CONSTRAINT_UNIQUE", "UNIQUE constraint failed: user.email",
        "UniqueConstraintViolation", some (ErrorConstraint.fields ["email"]),
        none, none⟩ : DriverError).kind = "UniqueConstraintViolation" :=
  ⟨rfl,
    (C4_error_classification
        ⟨some "UNIQUE constraint failed: user.email",
          some "SQLITE_CONSTRAINT_UNIQUE", none⟩
        ⟨"SQLITE_CONSTRAINT_UNIQUE", "UNIQUE constraint failed: user.email",
          "UniqueConstraintViolation", some (ErrorConstraint.fields ["email"]),
          none, none⟩ rfl).2.2.2.1 (Or.inl rfl)⟩

/-- C5: an error with no recognizable code (neither a symbolic code string nor a
numeric result code), or whose resolved code and message match none of the mapping
rules, is re-thrown by `convertDriverError` exactly as the original error object. -/
theorem C5_unrecognized_rethrow (e : SqliteError)
    (h : (e.code = none ∧ e.errno = none) ∨
      (isHandledErrorCode (resolveErrorCode e) = false ∧
        jsStartsWith (e.message.getD "") "no such table" = false ∧
        jsStartsWith (e.message.getD "") "no such column" = false ∧
        strIncludes (e.message.getD "") "has no column named" = false)) :
    convertDriverError e = Except.error e := by
  unfold convertDriverError
  rcases h with ⟨hc, he⟩ | ⟨hh, ht, hcl, hn⟩
  · rw [if_pos (Or.inr ⟨hc, he⟩)]
  · by_cases hg : jsTruthyStr e.message = none ∨ (e.code = none ∧ e.errno = none)
    · rw [if_pos hg]
    · rw [if_neg hg]
      simp only [isHandledErrorCode, Bool.or_eq_false_iff, beq_eq_false_iff_ne,
        ne_eq] at hh
      obtain ⟨⟨⟨⟨⟨h1, h2⟩, h3⟩, h4⟩, h5⟩, h6⟩ := hh
      rw [if_neg h1, if_neg (not_or.mpr ⟨h2, h3⟩), if_neg h4,
        if_neg (not_or.mpr ⟨h5, h6⟩), if_neg (by simp [ht]), if_neg (by simp [hcl]),
        if_neg (by simp [hn])]

/-- Concrete instance of the rethrow behavior on an error carrying neither a code
string nor an errno. -/
theorem C5_unrecognized_rethrow_witness :
    ((⟨some "weird failure", none, none⟩ : SqliteError).code = none ∧
      (⟨some "weird failure", none, none⟩ : SqliteError).errno = none) ∧
    convertDriverError ⟨some "weird failure", none, none⟩ =
      Except.error ⟨some "weird failure", none, none⟩ :=
  ⟨⟨rfl, rfl⟩, C5_unrecognized_rethrow _ (Or.inl ⟨rfl, rfl⟩)⟩

/-! ### Lemmas: mutex trace behavior -/

theorem acquireMany_locked (ids : List Nat) :
    ∀ q : List Nat, acquireMany ids ⟨true, q⟩ = ⟨true, q ++ ids⟩ := by
  induction ids with
  | nil => intro q; simp [acquireMany]
  | cons i rest ih =>
    intro q
    show acquireMany rest (acquire i ⟨true, q⟩).1 = _
    have hstep : (acquire i ⟨true, q⟩).1 = ⟨true, q ++ [i]⟩ := rfl
    rw [hstep, ih (q ++ [i])]
    simp

theorem drainReleasesFuel_queue (q : List Nat) :
    ∀ l : Bool, drainReleasesFuel q.length ⟨l, q⟩ = q := by
  induction q with
  | nil => intro l; rfl
  | cons x rest ih =>
    intro l
    show drainReleasesFuel (rest.length + 1) ⟨l, x :: rest⟩ = x :: rest
    simp only [drainReleasesFuel, release]
    rw [ih true]

theorem runCloseOps_spent (ops : List CloseOp) :
    ∀ (st : TransactionState) (m : MutexState),
      (runCloseOps ops ⟨st, true⟩ m).2 = m := by
  induction ops with
  | nil => intro st m; rfl
  | cons op rest ih =>
    intro st m
    cases op
    · exact ih TransactionState.committed m
    · exact ih TransactionState.rolled_back m

/-! ### Claim theorems: transactions and the mutex -/

/-- Counterexample to C6 as stated: commit is an operation on a transaction whose
state is rolled_back (not active), yet it does not fail with
TransactionAlreadyClosed: it succeeds, and it even overwrites the state from one
closed state to the other. -/
theorem C6_counterexample :
    txCommit ⟨TransactionState.rolled_back, true⟩ ⟨false, []⟩ =
      Except.ok (⟨TransactionState.committed, true⟩, ⟨false, []⟩, none) := rfl

/-- C6 (amended): queryRaw and executeRaw on a non-active transaction fail with
TransactionAlreadyClosed; commit and rollback are not guarded by the state: they
succeed in every state and overwrite it with committed respectively
rolled_back. -/
theorem C6_transaction_state_machine (t : BunSqliteTransaction) (m : MutexState)
    (h : t.state ≠ TransactionState.active) :
    (∃ c, txQueryRaw t = Except.error (TxError.transactionAlreadyClosed c)) ∧
    (∃ c, txExecuteRaw t = Except.error (TxError.transactionAlreadyClosed c)) ∧
    (∃ r, txCommit t m = Except.ok r ∧ r.1.state = TransactionState.committed) ∧
    (∃ r, txRollback t m = Except.ok r ∧
      r.1.state = TransactionState.rolled_back) := by
  refine ⟨⟨"Cannot execute query on a " ++ stateName t.state ++ " transaction.", ?_⟩,
    ⟨"Cannot execute statement on a " ++ stateName t.state ++ " transaction.", ?_⟩,
    ⟨(⟨TransactionState.committed, (callReleaser t.releaserCalled m).1⟩,
      (callReleaser t.releaserCalled m).2.1, (callReleaser t.releaserCalled m).2.2),
      rfl, rfl⟩,
    ⟨(⟨TransactionState.rolled_back, (callReleaser t.releaserCalled m).1⟩,
      (callReleaser t.releaserCalled m).2.1, (callReleaser t.releaserCalled m).2.2),
      rfl, rfl⟩⟩
  · unfold txQueryRaw
    rw [if_pos h]
  · unfold txExecuteRaw
    rw [if_pos h]

/-- Concrete instance of the amended transaction state machine on a committed
transaction. -/
theorem C6_transaction_state_machine_witness :
    ((⟨TransactionState.committed, true⟩ : BunSqliteTransaction).state ≠
      TransactionState.active) ∧
    ((∃ c, txQueryRaw ⟨TransactionState.committed, true⟩ =
        Except.error (TxError.transactionAlreadyClosed c)) ∧
      (∃ c, txExecuteRaw ⟨TransactionState.committed, true⟩ =
        Except.error (TxError.transactionAlreadyClosed c)) ∧
      (∃ r, txCommit ⟨TransactionState.committed, true⟩ ⟨false, []⟩ =
        Except.ok r ∧ r.1.state = TransactionState.committed) ∧
      (∃ r, txRollback ⟨TransactionState.committed, true⟩ ⟨false, []⟩ =
        Except.ok r ∧ r.1.state = TransactionState.rolled_back)) :=
  ⟨by decide,
    C6_transaction_state_machine ⟨TransactionState.committed, true⟩ ⟨false, []⟩
      (by decide)⟩

/-- C7: from an idle mutex, the first of a batch of concurrent acquirers is
granted the lock immediately and the rest are queued in arrival order; draining
the mutex unblocks exactly that arrival order; each single release hands the lock
directly to the head waiter; and the locked flag is cleared only when the queue is
empty. -/
theorem C7_fifo_admission (w : Nat) (ws : List Nat) :
    (acquire w MutexState.empty).2 = AcquireResult.granted ∧
    acquireMany (w :: ws) MutexState.empty = ⟨true, ws⟩ ∧
    drainReleases (acquireMany (w :: ws) MutexState.empty) = ws ∧
    (∀ (l : Bool) (x : Nat) (rest : List Nat),
      release ⟨l, x :: rest⟩ = (⟨true, rest⟩, some x)) ∧
    (∀ s : MutexState,
      (release s).2 = none → (release s).1.locked = false ∧ s.queue = []) := by
  have hacq : acquireMany (w :: ws) MutexState.empty = ⟨true, ws⟩ := by
    show acquireMany ws (acquire w MutexState.empty).1 = _
    have hfirst : (acquire w MutexState.empty).1 = ⟨true, []⟩ := rfl
    rw [hfirst, acquireMany_locked ws []]
    simp
  refine ⟨rfl, hacq, ?_, fun l x rest => rfl, ?_⟩
  · rw [hacq]
    show drainReleasesFuel ws.length ⟨true, ws⟩ = ws
    exact drainReleasesFuel_queue ws true
  · intro s hs
    obtain ⟨l, q⟩ := s
    cases q with
    | nil => exact ⟨rfl, rfl⟩
    | cons x rest => simp [release] at hs

/-- Concrete instance of FIFO admission for three arrivals. -/
theorem C7_fifo_admission_witness :
    drainReleases (acquireMany [1, 2, 3] MutexState.empty) = [2, 3] ∧
    release ⟨true, [2, 3]⟩ = (⟨true, [3]⟩, some 2) ∧
    (release ⟨true, []⟩).1.locked = false :=
  ⟨(C7_fifo_admission 1 [2, 3]).2.2.1,
    (C7_fifo_admission 1 [2, 3]).2.2.2.1 true 2 [3],
    ((C7_fifo_admission 1 [2, 3]).2.2.2.2 ⟨true, []⟩ rfl).1⟩

/-- C8: the releaser handed out by an acquisition is one-shot: the first call
marks it called, and a call on an already-called releaser returns the mutex state
unchanged and unblocks nobody, so the second and every subsequent call for the
same acquisition are no-ops. -/
theorem C8_release_idempotent (s : MutexState) :
    (callReleaser false s).1 = true ∧
    (∀ u : MutexState, callReleaser true u = (true, u, none)) ∧
    callReleaser (callReleaser false s).1 (callReleaser false s).2.1 =
      (true, (callReleaser false s).2.1, none) :=
  ⟨rfl, fun _ => rfl, rfl⟩

/-- C9: when BEGIN fails after the mutex has been acquired on an idle adapter,
startTransaction releases the lock before the translated error propagates: the
resulting mutex state is idle again and a subsequent acquisition is granted. -/
theorem C9_begin_failure_releases_lock (err : SqliteError) (w w2 : Nat)
    (m : MutexState) (hL : m.locked = false) (hQ : m.queue = []) :
    startTransaction none (Except.error err) w m =
      StartOutcome.failed (convertedStartError err) ⟨false, []⟩ ∧
    (acquire w2 ⟨false, []⟩).2 = AcquireResult.granted := by
  obtain ⟨l, q⟩ := m
  subst hL
  subst hQ
  exact ⟨rfl, rfl⟩

/-- Concrete instance of the lock release on a failing BEGIN. -/
theorem C9_begin_failure_releases_lock_witness :
    MutexState.empty.locked = false ∧ MutexState.empty.queue = [] ∧
    (startTransaction none
        (Except.error ⟨some "disk I/O error", none, some 10⟩) 0 MutexState.empty =
      StartOutcome.failed
        (convertedStartError ⟨some "disk I/O error", none, some 10⟩) ⟨false, []⟩ ∧
      (acquire 1 ⟨false, []⟩).2 = AcquireResult.granted) :=
  ⟨rfl, rfl,
    C9_begin_failure_releases_lock ⟨some "disk I/O error", none, some 10⟩ 0 1
      MutexState.empty rfl rfl⟩

/-- C10: commit and rollback never throw in any transaction state and overwrite
the state with their own terminal value; a close call on a fresh releaser performs
the one real mutex release, a close call on a spent releaser leaves the mutex
untouched, and over any sequence of commit/rollback calls on one transaction the
mutex is released at most once. -/
theorem C10_close_never_throws_single_release :
    (∀ (t : BunSqliteTransaction) (m : MutexState),
      ∃ r, txCommit t m = Except.ok r) ∧
    (∀ (t : BunSqliteTransaction) (m : MutexState),
      ∃ r, txRollback t m = Except.ok r) ∧
    (∀ (st : TransactionState) (m : MutexState),
      txCommit ⟨st, false⟩ m =
        Except.ok (⟨TransactionState.committed, true⟩, (release m).1, (release m).2)) ∧
    (∀ (st : TransactionState) (m : MutexState),
      txRollback ⟨st, false⟩ m =
        Except.ok
          (⟨TransactionState.rolled_back, true⟩, (release m).1, (release m).2)) ∧
    (∀ (st : TransactionState) (m : MutexState),
      txCommit ⟨st, true⟩ m =
        Except.ok (⟨TransactionState.committed, true⟩, m, none)) ∧
    (∀ (st : TransactionState) (m : MutexState),
      txRollback ⟨st, true⟩ m =
        Except.ok (⟨TransactionState.rolled_back, true⟩, m, none)) ∧
    (∀ (ops : List CloseOp) (st : TransactionState) (m : MutexState),
      (runCloseOps ops ⟨st, true⟩ m).2 = m) ∧
    (∀ (op : CloseOp) (ops : List CloseOp) (st : TransactionState) (m : MutexState),
      (runCloseOps (op :: ops) ⟨st, false⟩ m).2 = (release m).1) := by
  refine ⟨fun t m => ⟨_, rfl⟩, fun t m => ⟨_, rfl⟩, fun st m => rfl, fun st m => rfl,
    fun st m => rfl, fun st m => rfl, fun ops st m => runCloseOps_spent ops st m, ?_⟩
  intro op ops st m
  cases op
  · exact runCloseOps_spent ops TransactionState.committed (release m).1
  · exact runCloseOps_spent ops TransactionState.rolled_back (release m).1

end PrismaBunSqlite
